import Mathlib

/-!
Shallow embedding of the governance core of the repository
(`app/governance/*`): risk gates, RBAC, audit trail, bias monitor and the
governance engine pipeline, together with theorems settling the spec claims.

Python `dict`s are embedded as insertion-ordered association lists with
in-place replacement (`dset`), matching CPython dict semantics.  Python
floats (confidence scores, outcome values, thresholds) are embedded as `ℚ`:
every literal appearing in the source (0.7, 0.85, 0.9, 0.95, 0.8) is exactly
representable, and the source only compares, adds and divides them.
-/

namespace Governance

/-- Lookup in an insertion-ordered association list (Python `d.get(k)` / `k in d`). -/
def alookup {κ α : Type} [DecidableEq κ] : List (κ × α) → κ → Option α
  | [], _ => none
  | (k', v) :: t, k => if k' = k then some v else alookup t k

/-- Python dict assignment `d[k] = v`: replaces in place if the key exists,
otherwise appends at the end (CPython insertion order). -/
def dset {κ α : Type} [DecidableEq κ] : List (κ × α) → κ → α → List (κ × α)
  | [], k, v => [(k, v)]
  | (k', v') :: t, k, v => if k' = k then (k, v) :: t else (k', v') :: dset t k v

/-! Enumerations from `app/models/base.py`. -/

/-- Risk classification levels (`RiskLevel`). -/
inductive RiskLevel
  | LOW
  | MEDIUM
  | HIGH
  | CRITICAL
  deriving DecidableEq, Repr

/-- Agent types of the 8+1 architecture (`AgentType`). -/
inductive AgentType
  | ORCHESTRATOR
  | INTAKE
  | CARE_PLANNING
  | MEDICATION
  | DOCUMENTATION
  | BILLING
  | COMPLIANCE
  | FAMILY_COMMUNICATION
  | SCHEDULING
  deriving DecidableEq, Repr

/-- The `.value` string of an `AgentType` member. -/
def AgentType.value : AgentType → String
  | .ORCHESTRATOR => "ORCHESTRATOR"
  | .INTAKE => "INTAKE"
  | .CARE_PLANNING => "CARE_PLANNING"
  | .MEDICATION => "MEDICATION"
  | .DOCUMENTATION => "DOCUMENTATION"
  | .BILLING => "BILLING"
  | .COMPLIANCE => "COMPLIANCE"
  | .FAMILY_COMMUNICATION => "FAMILY_COMMUNICATION"
  | .SCHEDULING => "SCHEDULING"

/-- Status of an agent action (`ActionStatus`). -/
inductive ActionStatus
  | PENDING
  | IN_PROGRESS
  | AWAITING_APPROVAL
  | APPROVED
  | REJECTED
  | COMPLETED
  | FAILED
  | ESCALATED
  deriving DecidableEq, Repr

/-- User roles for RBAC (`UserRole`). -/
inductive UserRole
  | SYSTEM_ADMIN
  | CLINICAL_DIRECTOR
  | NURSE_MANAGER
  | CARE_COORDINATOR
  | BILLING_STAFF
  | FAMILY_PORTAL
  deriving DecidableEq, Repr

/-- An agent action (`AgentAction` in `app/models/base.py`).  The free-form
`parameters` dict is treated as an opaque pass-through blob (string pairs);
`safety_concern` embeds the explicit SAFETY_CONCERN marker the fallback
manager looks for (modelled from the spec, §4.4, since `fallback.py` is not
in the provided sources). -/
structure AgentAction where
  action_id : String
  agent_type : AgentType
  action_type : String
  parameters : List (String × String) := []
  patient_id : Option String := none
  risk_level : RiskLevel := .LOW
  confidence_score : ℚ := 1
  rationale : String := ""
  status : ActionStatus := .PENDING
  requires_approval : Bool := false
  safety_concern : Bool := false
  deriving DecidableEq, Repr

/-! Risk gate manager, from `app/governance/risk_gates.py` and
`app/models/governance.py`. -/

/-- Governance rule (`GovernanceRule` in `app/models/governance.py`);
defaults mirror the pydantic field defaults. -/
structure GovernanceRule where
  rule_id : String
  name : String
  description : String := ""
  risk_level : RiskLevel
  confidence_threshold : ℚ := 0.85
  requires_approval : Bool := false
  required_approvers : Nat := 1
  auto_escalate : Bool := true
  enabled : Bool := true
  deriving DecidableEq, Repr

/-- Approval request (`ApprovalRequest` in `app/models/governance.py`). -/
structure ApprovalRequest where
  request_id : String
  action_id : String
  agent_type : AgentType
  action_type : String
  patient_id : Option String := none
  risk_level : RiskLevel
  confidence_score : ℚ
  rationale : String := ""
  details : List (String × String) := []
  required_approvers : Nat := 1
  current_approvals : Nat := 0
  approved_by : List String := []
  rejected_by : Option String := none
  rejection_reason : Option String := none
  status : String := "PENDING"
  priority : String := "NORMAL"
  deriving DecidableEq, Repr

/-- State of `RiskGateManager`: `rules` and `pending_approvals` dicts, keyed
by `rule_id` and `request_id` respectively. -/
structure RiskGateManager where
  rules : List (String × GovernanceRule)
  pending_approvals : List (String × ApprovalRequest)
  deriving DecidableEq, Repr

/-- Default rules installed by `RiskGateManager._initialize_default_rules`. -/
def defaultRuleList : List (String × GovernanceRule) :=
  [ ("rule-low",
      { rule_id := "rule-low", name := "low_risk_auto_execute",
        description := "Auto-execute low-risk administrative tasks",
        risk_level := .LOW, confidence_threshold := 0.7,
        requires_approval := false, auto_escalate := false }),
    ("rule-medium",
      { rule_id := "rule-medium", name := "medium_risk_notify",
        description := "Execute with supervisor notification",
        risk_level := .MEDIUM, confidence_threshold := 0.85,
        requires_approval := false, auto_escalate := true }),
    ("rule-high",
      { rule_id := "rule-high", name := "high_risk_approval",
        description := "Require human approval for high-risk actions",
        risk_level := .HIGH, confidence_threshold := 0.90,
        requires_approval := true, required_approvers := 1 }),
    ("rule-critical",
      { rule_id := "rule-critical", name := "critical_multi_approval",
        description := "Require multi-person approval for critical actions",
        risk_level := .CRITICAL, confidence_threshold := 0.95,
        requires_approval := true, required_approvers := 2 }) ]

/-- A fresh `RiskGateManager` (`RiskGateManager.__init__`). -/
def RiskGateManager.init : RiskGateManager :=
  { rules := defaultRuleList, pending_approvals := [] }

/-- Risk classification (`RiskGateManager.classify_risk`): a static
three-tier membership test over the action-type string, critical first. -/
def classifyRisk (action : AgentAction) : RiskLevel :=
  let high_risk_actions := ["medication_change", "treatment_modification",
    "discharge_decision", "emergency_intervention", "biomarker_alert",
    "adverse_event_report"]
  let medium_risk_actions := ["care_plan_update", "documentation_update",
    "assessment_completion", "referral_creation", "order_entry"]
  let critical_actions := ["critical_biomarker_alert", "emergency_escalation",
    "life_threatening_condition", "code_blue_activation"]
  if action.action_type ∈ critical_actions then .CRITICAL
  else if action.action_type ∈ high_risk_actions then .HIGH
  else if action.action_type ∈ medium_risk_actions then .MEDIUM
  else .LOW

/-- First rule whose `risk_level` matches, in dict insertion order, else the
first rule in the dict (`RiskGateManager._get_rule_for_risk_level`); `none`
models the `IndexError` a completely empty rules dict would raise. -/
def getRuleForRiskLevel (m : RiskGateManager) (risk_level : RiskLevel) :
    Option GovernanceRule :=
  match m.rules.find? (fun p => p.2.risk_level = risk_level) with
  | some p => some p.2
  | none => (m.rules.head?).map Prod.snd

/-- Result of `RiskGateManager._create_approval_request`: the updated manager,
the mutated action (status set to AWAITING_APPROVAL), and the new request.
`fresh_request_id` stands for the generated uuid. -/
def createApprovalRequest (m : RiskGateManager) (action : AgentAction)
    (rule : GovernanceRule) (reason : String) (fresh_request_id : String) :
    RiskGateManager × AgentAction × ApprovalRequest :=
  let priority := if action.risk_level = .CRITICAL then "URGENT" else "HIGH"
  let request : ApprovalRequest :=
    { request_id := fresh_request_id,
      action_id := action.action_id,
      agent_type := action.agent_type,
      action_type := action.action_type,
      patient_id := action.patient_id,
      risk_level := action.risk_level,
      confidence_score := action.confidence_score,
      rationale := reason ++ ": " ++ action.rationale,
      details := action.parameters,
      required_approvers := rule.required_approvers,
      priority := priority }
  ({ m with pending_approvals := dset m.pending_approvals fresh_request_id request },
   { action with status := .AWAITING_APPROVAL },
   request)

/-- Result record of `RiskGateManager.evaluate_gate`. -/
structure GateResult where
  manager : RiskGateManager
  action : AgentAction
  can_proceed : Bool
  approval_request : Option ApprovalRequest
  deriving DecidableEq, Repr

/-- Gate evaluation (`RiskGateManager.evaluate_gate`).  In the source,
`risk_level = action.risk_level or self.classify_risk(action)` always yields
`action.risk_level`, because `RiskLevel` is a str-enum whose members are
non-empty strings and hence always truthy; the field itself is non-optional
with default LOW.  `none` propagates the configuration-integrity fault of an
empty rules dict. -/
def evaluateGate (m : RiskGateManager) (action₀ : AgentAction)
    (fresh_request_id : String) : Option GateResult :=
  let risk_level := action₀.risk_level
  let action := { action₀ with risk_level := risk_level }
  match getRuleForRiskLevel m risk_level with
  | none => none
  | some rule =>
    if action.confidence_score < rule.confidence_threshold then
      let (m', a', req) := createApprovalRequest m action rule "LOW_CONFIDENCE" fresh_request_id
      some ⟨m', a', false, some req⟩
    else if rule.requires_approval then
      let (m', a', req) := createApprovalRequest m action rule "RISK_LEVEL" fresh_request_id
      some ⟨m', a', false, some req⟩
    else if risk_level = .LOW then
      some ⟨m, { action with status := .APPROVED }, true, none⟩
    else if risk_level = .MEDIUM then
      some ⟨m, { action with status := .APPROVED }, true, none⟩
    else
      let (m', a', req) := createApprovalRequest m action rule "RISK_LEVEL" fresh_request_id
      some ⟨m', a', false, some req⟩

/-- Approval decision processing (`RiskGateManager.process_approval`).
Returns the updated manager and the boolean the call returns (`true` iff the
request just became (or was re-reported as) fully approved). -/
def processApproval (m : RiskGateManager) (request_id approver_id : String)
    (approved : Bool) (reason : Option String) : RiskGateManager × Bool :=
  match alookup m.pending_approvals request_id with
  | none => (m, false)
  | some request =>
    if approved then
      let request' := { request with
        approved_by := request.approved_by ++ [approver_id],
        current_approvals := request.current_approvals + 1 }
      if request'.required_approvers ≤ request'.current_approvals then
        let final := { request' with status := "APPROVED" }
        ({ m with pending_approvals := dset m.pending_approvals request_id final }, true)
      else
        ({ m with pending_approvals := dset m.pending_approvals request_id request' }, false)
    else
      let final := { request with
        status := "REJECTED", rejected_by := some approver_id, rejection_reason := reason }
      ({ m with pending_approvals := dset m.pending_approvals request_id final }, false)

/-! RBAC manager, from `app/governance/rbac.py`. -/

/-- The `.value` string of a `UserRole` member. -/
def UserRole.value : UserRole → String
  | .SYSTEM_ADMIN => "SYSTEM_ADMIN"
  | .CLINICAL_DIRECTOR => "CLINICAL_DIRECTOR"
  | .NURSE_MANAGER => "NURSE_MANAGER"
  | .CARE_COORDINATOR => "CARE_COORDINATOR"
  | .BILLING_STAFF => "BILLING_STAFF"
  | .FAMILY_PORTAL => "FAMILY_PORTAL"

/-- User account (`User` in `app/models/governance.py`). -/
structure User where
  user_id : String
  username : String := ""
  email : String := ""
  role : UserRole
  is_active : Bool := true
  permissions_override : List String := []
  deriving DecidableEq, Repr

/-- Permission record (`RBACPermission` in `app/models/governance.py`). -/
structure RBACPermission where
  role : UserRole
  agent_type : AgentType
  allowed_actions : List String := []
  read_access : Bool := false
  write_access : Bool := false
  approve_access : Bool := false
  admin_access : Bool := false
  deriving DecidableEq, Repr

/-- All nine agent types, in declaration order (`list(AgentType)`). -/
def allAgentTypes : List AgentType :=
  [.ORCHESTRATOR, .INTAKE, .CARE_PLANNING, .MEDICATION, .DOCUMENTATION,
   .BILLING, .COMPLIANCE, .FAMILY_COMMUNICATION, .SCHEDULING]

/-- One row of the default permission matrix, expanded over its agent list
(the inner loop of `RBACManager._initialize_default_permissions`). -/
def permRow (role : UserRole) (agents : List AgentType)
    (r w ap ad : Bool) (actions : List String) :
    List ((UserRole × AgentType) × RBACPermission) :=
  agents.map fun ag =>
    ((role, ag),
     { role := role, agent_type := ag, allowed_actions := actions,
       read_access := r, write_access := w, approve_access := ap, admin_access := ad })

/-- The `_permission_cache` built by `_initialize_default_permissions`. -/
def defaultPermissionCache : List ((UserRole × AgentType) × RBACPermission) :=
  permRow .SYSTEM_ADMIN allAgentTypes true true true true ["*"] ++
  permRow .CLINICAL_DIRECTOR
    [.ORCHESTRATOR, .INTAKE, .CARE_PLANNING, .MEDICATION, .DOCUMENTATION,
     .COMPLIANCE, .FAMILY_COMMUNICATION, .SCHEDULING]
    true true true false ["*"] ++
  permRow .NURSE_MANAGER
    [.INTAKE, .CARE_PLANNING, .DOCUMENTATION, .FAMILY_COMMUNICATION, .SCHEDULING]
    true true false false
    ["view_patient", "update_care_plan", "create_documentation",
     "send_communication", "schedule_appointment"] ++
  permRow .CARE_COORDINATOR [.FAMILY_COMMUNICATION, .SCHEDULING]
    true true false false
    ["view_schedule", "create_appointment", "send_reminder",
     "contact_family", "update_contact_info"] ++
  permRow .BILLING_STAFF [.BILLING]
    true true false false
    ["view_claims", "submit_claim", "process_payment",
     "generate_invoice", "view_documentation"] ++
  permRow .FAMILY_PORTAL [.FAMILY_COMMUNICATION, .SCHEDULING]
    true false false false
    ["view_appointments", "view_care_updates", "send_message"]

/-- State of `RBACManager`: the `users` dict and the `(role, agent_type)`
permission cache. -/
structure RBACManager where
  users : List (String × User)
  perm_cache : List ((UserRole × AgentType) × RBACPermission)
  deriving Repr

/-- A fresh `RBACManager` (`RBACManager.__init__`). -/
def RBACManager.init : RBACManager :=
  { users := [], perm_cache := defaultPermissionCache }

/-- Permission check (`RBACManager.check_permission`): fail closed on missing
or inactive users; a per-user override bypasses the matrix; otherwise resolve
the `(role, agent_type)` permission record and check read / write / approve
capability and the allowed-action set (with `*` wildcard). -/
def checkPermission (m : RBACManager) (user_id : String) (agent_type : AgentType)
    (action : String) (require_write require_approve : Bool) : Bool × String :=
  match alookup m.users user_id with
  | none => (false, "User not found")
  | some user =>
    if !user.is_active then (false, "User account is inactive")
    else if action ∈ user.permissions_override then
      (true, "Permission granted via override")
    else
      match alookup m.perm_cache (user.role, agent_type) with
      | none =>
        (false, "No permission defined for " ++ user.role.value ++ " on " ++ agent_type.value)
      | some permission =>
        if !permission.read_access then (false, "No read access to this agent")
        else if require_write && !permission.write_access then
          (false, "Write access required but not granted")
        else if require_approve && !permission.approve_access then
          (false, "Approval access required but not granted")
        else if "*" ∉ permission.allowed_actions ∧ action ∉ permission.allowed_actions then
          (false, "Action not in allowed actions")
        else (true, "Permission granted")

/-- Subject-level access check (`RBACManager.check_patient_access`):
role-tier rule after the fail-closed user checks. -/
def checkPatientAccess (m : RBACManager) (user_id : String) (patient_id : String)
    (access_type : String) : Bool × String :=
  match alookup m.users user_id with
  | none => (false, "User not found")
  | some user =>
    if !user.is_active then (false, "User account is inactive")
    else if user.role = .SYSTEM_ADMIN then (true, "Admin access")
    else if user.role = .CLINICAL_DIRECTOR then (true, "Clinical director access")
    else if user.role = .NURSE_MANAGER ∨ user.role = .CARE_COORDINATOR then
      (true, "Care team access")
    else if user.role = .BILLING_STAFF then
      if access_type = "VIEW" ∨ access_type = "BILLING" then
        (true, "Billing access for claims processing")
      else (false, "Billing staff limited to billing-related access")
    else if user.role = .FAMILY_PORTAL then (true, "Family portal access (limited view)")
    else (false, "Access denied")

/-! Bias monitor, from `app/governance/bias_monitor.py`. -/

/-- One element of an `action_records` list (the record dict built by
`BiasMonitor.record_action_outcome`); timestamps and free-form metadata are
not modelled since no embedded operation reads them. -/
structure OutcomeRecord where
  agent_type : AgentType
  action_type : String
  demographics : List (String × String)
  outcome : String
  outcome_value : Option ℚ := none
  deriving DecidableEq, Repr

/-- The per-record outcome value: default 1.0 for a POSITIVE categorical
outcome and 0.0 otherwise, when `outcome_value` is missing. -/
def outcomeValueOf (r : OutcomeRecord) : ℚ :=
  match r.outcome_value with
  | some v => v
  | none => if r.outcome = "POSITIVE" then 1 else 0

/-- Disparity ratio value: a finite rational or the Python float infinity
produced by the zero-reference-rate branch. -/
inductive DisparityRatio
  | fin (q : ℚ)
  | posInf
  deriving DecidableEq, Repr

/-- Comparison `ratio < threshold` on a `DisparityRatio` (infinity is never
below a finite threshold). -/
def DisparityRatio.ltQ : DisparityRatio → ℚ → Bool
  | .fin x, q => decide (x < q)
  | .posInf, _ => false

/-- Computed bias statistic (`BiasMetric` in `app/models/audit.py`).  The
heuristic confidence interval (ratio ± 1.96·max stddev) involves a real
square root and is not modelled; no claim mentions it. -/
structure BiasMetric where
  metric_type : String := "DISPARATE_IMPACT"
  dimension : String
  agent_type : AgentType
  action_type : String
  baseline_rate : ℚ
  observed_rate : ℚ
  disparity_ratio : DisparityRatio
  threshold_exceeded : Bool := false
  sample_size : Nat
  protected_group : String
  reference_group : String
  protected_count : Nat
  reference_count : Nat
  deriving DecidableEq, Repr

/-- Compliance event (`ComplianceEvent` in `app/models/audit.py`); the
human-readable description string (float formatting) is not modelled. -/
structure ComplianceEvent where
  event_type : String := "BIAS_DETECTED"
  severity : String
  affected_agents : List AgentType := []
  remediation_required : Bool := false
  remediation_status : Option String := none
  deriving DecidableEq, Repr

/-- State of `BiasMonitor`; `demographic_outcomes` is not modelled because no
embedded operation reads it. -/
structure BiasMonitor where
  disparate_impact_threshold : ℚ := 0.8
  metrics : List BiasMetric := []
  compliance_events : List ComplianceEvent := []
  action_records : List (String × List OutcomeRecord) := []
  deriving DecidableEq, Repr

/-- The `(agent, action)` record key `f"{agent_type.value}_{action_type}"`. -/
def recordKey (agent_type : AgentType) (action_type : String) : String :=
  agent_type.value ++ "_" ++ action_type

/-- Sample recording (`BiasMonitor.record_action_outcome`), restricted to the
`action_records` append. -/
def recordActionOutcome (m : BiasMonitor) (r : OutcomeRecord) : BiasMonitor :=
  let key := recordKey r.agent_type r.action_type
  let records := (alookup m.action_records key).getD [] ++ [r]
  { m with action_records := dset m.action_records key records }

/-- The record-partitioning loop of `calculate_disparate_impact`: outcome
values of records whose dimension value equals the protected group, and
(else-if) of those equal to the reference group, in record order. -/
def splitGroups (records : List OutcomeRecord)
    (dimension protected_group reference_group : String) : List ℚ × List ℚ :=
  match records with
  | [] => ([], [])
  | r :: t =>
    let rest := splitGroups t dimension protected_group reference_group
    let demo_value := alookup r.demographics dimension
    if demo_value = some protected_group then
      (outcomeValueOf r :: rest.1, rest.2)
    else if demo_value = some reference_group then
      (rest.1, outcomeValueOf r :: rest.2)
    else rest

/-- Mean of a list of rationals (`statistics.mean`); only applied to lists of
five or more elements. -/
def qmean (l : List ℚ) : ℚ := l.sum / (l.length : ℚ)

/-- The records stored for an `(agent, action)` key
(`self.action_records.get(key, [])`). -/
def diRecords (m : BiasMonitor) (agent_type : AgentType) (action_type : String) :
    List OutcomeRecord :=
  (alookup m.action_records (recordKey agent_type action_type)).getD []

/-- The two group outcome lists `calculate_disparate_impact` builds for an
`(agent, action)` key and a group comparison. -/
def diGroups (m : BiasMonitor) (agent_type : AgentType)
    (action_type dimension protected_group reference_group : String) :
    List ℚ × List ℚ :=
  splitGroups (diRecords m agent_type action_type) dimension protected_group reference_group

/-- Disparate-impact calculation (`BiasMonitor.calculate_disparate_impact`).
Returns the updated monitor (stored metric, possible compliance event) and
the optional metric; `none` is the insufficient-data result.  The division
producing the ratio is guarded by the `reference_rate == 0` test, so the
embedding needs no error value for a division fault. -/
def calculateDisparateImpact (m : BiasMonitor) (agent_type : AgentType)
    (action_type dimension protected_group reference_group : String) :
    BiasMonitor × Option BiasMetric :=
  let records := diRecords m agent_type action_type
  if records.length < 10 then (m, none)
  else
    let groups := diGroups m agent_type action_type dimension protected_group reference_group
    let protected_outcomes := groups.1
    let reference_outcomes := groups.2
    if protected_outcomes.length < 5 ∨ reference_outcomes.length < 5 then (m, none)
    else
      let protected_rate := qmean protected_outcomes
      let reference_rate := qmean reference_outcomes
      let disparity_ratio :=
        if reference_rate = 0 then
          if protected_rate = 0 then DisparityRatio.fin 1 else DisparityRatio.posInf
        else DisparityRatio.fin (protected_rate / reference_rate)
      let threshold_exceeded := disparity_ratio.ltQ m.disparate_impact_threshold
      let metric : BiasMetric :=
        { dimension := dimension, agent_type := agent_type, action_type := action_type,
          baseline_rate := reference_rate, observed_rate := protected_rate,
          disparity_ratio := disparity_ratio, threshold_exceeded := threshold_exceeded,
          sample_size := protected_outcomes.length + reference_outcomes.length,
          protected_group := protected_group, reference_group := reference_group,
          protected_count := protected_outcomes.length,
          reference_count := reference_outcomes.length }
      let events :=
        if threshold_exceeded then
          m.compliance_events ++
            [{ severity := "WARNING", affected_agents := [agent_type],
               remediation_required := true, remediation_status := some "PENDING" }]
        else m.compliance_events
      ({ m with metrics := m.metrics ++ [metric], compliance_events := events },
       some metric)

/-! Audit trail manager, from `app/governance/audit_trail.py` and
`app/models/audit.py`. -/

/-- One appended modification dict (free-form string pairs; timestamps are
not modelled). -/
abbrev Modification : Type := List (String × String)

/-- Audit log entry (`AuditLogEntry` in `app/models/audit.py`); `api_calls`
keeps the associated call ids. -/
structure AuditLogEntry where
  log_id : String
  agent_id : String
  agent_type : AgentType
  action_type : String
  patient_id : Option String := none
  parameters : List (String × String) := []
  rationale : String := ""
  confidence_score : ℚ := 1
  risk_level : RiskLevel := .LOW
  api_calls : List String := []
  human_override : Bool := false
  override_by : Option String := none
  override_reason : Option String := none
  outcome : String := ""
  status : ActionStatus := .PENDING
  modifications : List Modification := []
  session_id : Option String := none
  user_id : Option String := none
  ip_address : Option String := none
  deriving DecidableEq

/-- PHI access log (`AccessLog` in `app/models/audit.py`). -/
structure AccessLog where
  access_id : String
  user_id : String
  user_role : String
  patient_id : String
  resource_type : String
  action : String
  success : Bool := true
  reason : Option String := none
  ip_address : Option String := none
  session_id : Option String := none
  deriving DecidableEq, Repr

/-- Escalation log (`EscalationLog` in `app/models/audit.py`). -/
structure EscalationLog where
  escalation_id : String
  source_agent : AgentType
  action_id : String
  escalation_reason : String
  confidence_score : ℚ
  risk_level : RiskLevel
  assigned_to : Option String := none
  resolved : Bool := false
  resolution_action : Option String := none
  resolved_by : Option String := none
  deriving DecidableEq, Repr

/-- External API call record (`APICallLog` in `app/models/base.py`),
restricted to the fields the audit trail copies. -/
structure APICallRec where
  call_id : String
  service_name : String
  endpoint : String
  status_code : Int := 200
  latency_ms : ℚ := 0
  deriving DecidableEq, Repr

/-- State of `AuditTrailManager`: the four primary dicts and the three
secondary indices (patient id, agent type, session id → list of log ids). -/
structure AuditTrailManager where
  audit_logs : List (String × AuditLogEntry) := []
  access_logs : List (String × AccessLog) := []
  escalation_logs : List (String × EscalationLog) := []
  api_call_logs : List (String × APICallRec) := []
  log_index_by_patient : List (String × List String) := []
  log_index_by_agent : List (AgentType × List String) := []
  log_index_by_session : List (String × List String) := []
  deriving DecidableEq

/-- A fresh `AuditTrailManager` (`AuditTrailManager.__init__`). -/
def AuditTrailManager.empty : AuditTrailManager := {}

/-- Append to a `defaultdict(list)` index: `index[k].append(lid)`. -/
def dappend {κ : Type} [DecidableEq κ] (l : List (κ × List String)) (k : κ)
    (lid : String) : List (κ × List String) :=
  dset l k ((alookup l k).getD [] ++ [lid])

/-- The id list an index holds for a key (empty when the key is absent). -/
def idsOf {κ : Type} [DecidableEq κ] (l : List (κ × List String)) (k : κ) :
    List String :=
  (alookup l k).getD []

/-- Conditional index append: `log_action` appends to the patient and session
indices only when the respective optional key is present. -/
def optAppend {κ : Type} [DecidableEq κ] (l : List (κ × List String))
    (o : Option κ) (lid : String) : List (κ × List String) :=
  match o with
  | some k => dappend l k lid
  | none => l

/-- Action logging (`AuditTrailManager.log_action`): build the entry from the
action, store it under its (fresh) log id, then append the id to the patient
index (when the action has a patient id), the agent-type index, and the
session index (when a session id was given).  Returns the new state and the
entry. -/
def logAction (st : AuditTrailManager) (action : AgentAction)
    (fresh_log_id : String) (session_id user_id ip_address : Option String) :
    AuditTrailManager × AuditLogEntry :=
  let entry : AuditLogEntry :=
    { log_id := fresh_log_id,
      agent_id := action.agent_type.value ++ "_" ++ action.action_id.take 8,
      agent_type := action.agent_type,
      action_type := action.action_type,
      patient_id := action.patient_id,
      parameters := action.parameters,
      rationale := action.rationale,
      confidence_score := action.confidence_score,
      risk_level := action.risk_level,
      status := action.status,
      session_id := session_id,
      user_id := user_id,
      ip_address := ip_address }
  let st1 := { st with audit_logs := dset st.audit_logs fresh_log_id entry }
  let st2 :=
    match action.patient_id with
    | some pid =>
      { st1 with log_index_by_patient := dappend st1.log_index_by_patient pid fresh_log_id }
    | none => st1
  let st3 :=
    { st2 with log_index_by_agent := dappend st2.log_index_by_agent action.agent_type fresh_log_id }
  let st4 :=
    match session_id with
    | some sid =>
      { st3 with log_index_by_session := dappend st3.log_index_by_session sid fresh_log_id }
    | none => st3
  (st4, entry)

/-- Containment of one character list in another, for the Python substring
test `action_id in entry.agent_id`. -/
def charSub (needle : List Char) : List Char → Bool
  | [] => needle.isEmpty
  | c :: t => needle.isPrefixOf (c :: t) || charSub needle t

/-- The loop body of `log_api_call`: walk the audit-log dict in insertion
order and append the call reference to the first entry whose `agent_id`
contains the action id as a substring or whose `log_id` equals it. -/
def attachApiCall : List (String × AuditLogEntry) → String → String →
    List (String × AuditLogEntry)
  | [], _, _ => []
  | (k, e) :: t, action_id, call_id =>
    if charSub action_id.toList e.agent_id.toList ∨ e.log_id = action_id then
      (k, { e with api_calls := e.api_calls ++ [call_id] }) :: t
    else (k, e) :: attachApiCall t action_id call_id

/-- API-call logging (`AuditTrailManager.log_api_call`). -/
def logApiCall (st : AuditTrailManager) (api_call : APICallRec)
    (action_id : String) : AuditTrailManager × String :=
  let st1 := { st with api_call_logs := dset st.api_call_logs api_call.call_id api_call }
  let st2 := { st1 with audit_logs := attachApiCall st1.audit_logs action_id api_call.call_id }
  (st2, api_call.call_id)

/-- PHI access logging (`AuditTrailManager.log_access`). -/
def logAccess (st : AuditTrailManager) (fresh_access_id : String)
    (user_id user_role patient_id resource_type action : String) (success : Bool)
    (reason : Option String) (ip_address session_id : Option String) :
    AuditTrailManager × AccessLog :=
  let log : AccessLog :=
    { access_id := fresh_access_id, user_id := user_id, user_role := user_role,
      patient_id := patient_id, resource_type := resource_type, action := action,
      success := success, reason := reason, ip_address := ip_address,
      session_id := session_id }
  ({ st with access_logs := dset st.access_logs fresh_access_id log }, log)

/-- Escalation logging (`AuditTrailManager.log_escalation`). -/
def logEscalation (st : AuditTrailManager) (fresh_escalation_id : String)
    (source_agent : AgentType) (action_id reason : String)
    (confidence_score : ℚ) (risk_level : RiskLevel) (assigned_to : Option String) :
    AuditTrailManager × EscalationLog :=
  let log : EscalationLog :=
    { escalation_id := fresh_escalation_id, source_agent := source_agent,
      action_id := action_id, escalation_reason := reason,
      confidence_score := confidence_score, risk_level := risk_level,
      assigned_to := assigned_to }
  ({ st with escalation_logs := dset st.escalation_logs fresh_escalation_id log }, log)

/-- Outcome update (`AuditTrailManager.update_log_outcome`): failure
indicator `false` and unchanged state on a missing log id; otherwise set
outcome and status and extend the modification list when one was passed
(an empty list is falsy in the source and appends nothing). -/
def updateLogOutcome (st : AuditTrailManager) (log_id outcome : String)
    (status : ActionStatus) (modifications : Option (List Modification)) :
    AuditTrailManager × Bool :=
  match alookup st.audit_logs log_id with
  | none => (st, false)
  | some entry =>
    let mods :=
      match modifications with
      | some (mh :: mt) => entry.modifications ++ (mh :: mt)
      | _ => entry.modifications
    let entry' := { entry with outcome := outcome, status := status, modifications := mods }
    ({ st with audit_logs := dset st.audit_logs log_id entry' }, true)

/-- Override recording (`AuditTrailManager.record_human_override`): failure
indicator `false` and unchanged state on a missing log id. -/
def recordHumanOverride (st : AuditTrailManager) (log_id override_by override_reason : String) :
    AuditTrailManager × Bool :=
  match alookup st.audit_logs log_id with
  | none => (st, false)
  | some entry =>
    let newmod : Modification :=
      [("type", "HUMAN_OVERRIDE"), ("by", override_by), ("reason", override_reason)]
    let mods := entry.modifications ++ [newmod]
    let entry' := { entry with
      human_override := true,
      override_by := some override_by,
      override_reason := some override_reason,
      modifications := mods }
    ({ st with audit_logs := dset st.audit_logs log_id entry' }, true)

/-- Escalation resolution (`AuditTrailManager.resolve_escalation`). -/
def resolveEscalation (st : AuditTrailManager) (escalation_id resolved_by resolution_action : String) :
    AuditTrailManager × Bool :=
  match alookup st.escalation_logs escalation_id with
  | none => (st, false)
  | some log =>
    let log' := { log with
      resolved := true,
      resolution_action := some resolution_action,
      resolved_by := some resolved_by }
    ({ st with escalation_logs := dset st.escalation_logs escalation_id log' }, true)

/-- One state-changing call on the audit trail manager, with the fresh uuids
it consumes made explicit. -/
inductive AuditOp
  | logAction (action : AgentAction) (fresh_log_id : String)
      (session_id user_id ip_address : Option String)
  | logApiCall (api_call : APICallRec) (action_id : String)
  | logAccess (fresh_access_id : String)
      (user_id user_role patient_id resource_type action : String) (success : Bool)
      (reason : Option String) (ip_address session_id : Option String)
  | logEscalation (fresh_escalation_id : String) (source_agent : AgentType)
      (action_id reason : String) (confidence_score : ℚ) (risk_level : RiskLevel)
      (assigned_to : Option String)
  | updateLogOutcome (log_id outcome : String) (status : ActionStatus)
      (modifications : Option (List Modification))
  | recordHumanOverride (log_id override_by override_reason : String)
  | resolveEscalation (escalation_id resolved_by resolution_action : String)

/-- Apply one audit operation to the state, discarding the returned value. -/
def AuditTrailManager.step (st : AuditTrailManager) : AuditOp → AuditTrailManager
  | .logAction a lid sid uid ip => (logAction st a lid sid uid ip).1
  | .logApiCall ac aid => (logApiCall st ac aid).1
  | .logAccess aid uid ur pid rt act ok reason ip sid =>
      (logAccess st aid uid ur pid rt act ok reason ip sid).1
  | .logEscalation eid sa aid reason conf rl ass =>
      (logEscalation st eid sa aid reason conf rl ass).1
  | .updateLogOutcome lid outcome status mods =>
      (updateLogOutcome st lid outcome status mods).1
  | .recordHumanOverride lid oby oreason => (recordHumanOverride st lid oby oreason).1
  | .resolveEscalation eid rby ract => (resolveEscalation st eid rby ract).1

/-- Run a sequence of audit operations from the empty state. -/
def runAuditOps (ops : List AuditOp) : AuditTrailManager :=
  ops.foldl AuditTrailManager.step .empty

/-- Index integrity of the audit trail: every id in any secondary index is a
key of the primary store, and every stored entry appears in the agent-type
index and, when it has a patient id (resp. session id), in the patient
(resp. session) index. -/
structure IndexOk (st : AuditTrailManager) : Prop where
  patient_closed : ∀ pid, ∀ lid ∈ idsOf st.log_index_by_patient pid,
    (alookup st.audit_logs lid).isSome
  agent_closed : ∀ ag, ∀ lid ∈ idsOf st.log_index_by_agent ag,
    (alookup st.audit_logs lid).isSome
  session_closed : ∀ sid, ∀ lid ∈ idsOf st.log_index_by_session sid,
    (alookup st.audit_logs lid).isSome
  entry_in_patient : ∀ lid e, alookup st.audit_logs lid = some e →
    ∀ pid, e.patient_id = some pid → lid ∈ idsOf st.log_index_by_patient pid
  entry_in_agent : ∀ lid e, alookup st.audit_logs lid = some e →
    lid ∈ idsOf st.log_index_by_agent e.agent_type
  entry_in_session : ∀ lid e, alookup st.audit_logs lid = some e →
    ∀ sid, e.session_id = some sid → lid ∈ idsOf st.log_index_by_session sid

/-! Fallback manager (spec-modelled) and governance engine, from
`app/governance/governance_engine.py`. -/

/-- Modelled from the spec: `FallbackManager.evaluate_action` from
`app/governance/fallback.py`, which is imported by the engine but absent
from the provided sources.  Per §4.4 it triggers on confidence below the
configured threshold or an explicit SAFETY_CONCERN marker, returning
`(shouldEscalate, trigger, reason)`. -/
def fallbackEvaluate (confidence_threshold : ℚ) (action : AgentAction) :
    Bool × Option String × Option String :=
  if action.confidence_score < confidence_threshold then
    (true, some "LOW_CONFIDENCE", some "Confidence below threshold")
  else if action.safety_concern then
    (true, some "SAFETY_CONCERN", some "Safety concern detected")
  else (false, none, none)

/-- Modelled from the spec: `FallbackManager.trigger_escalation` from the
missing `app/governance/fallback.py`.  Per §4.6 the escalated action is
terminal for this pass with status ESCALATED; the escalation record itself
is kept by the audit trail (`log_escalation`), and callbacks are isolated
side effects outside the state.  Returns the mutated action and the new
escalation id. -/
def fallbackTrigger (action : AgentAction) (fresh_escalation_id : String) :
    AgentAction × String :=
  ({ action with status := .ESCALATED }, fresh_escalation_id)

/-- Handler result dict (`{success: bool, error?: str, ...}` per §6). -/
structure ExecResult where
  success : Bool
  error : Option String := none

/-- Engine response (`AgentResponse` in `app/models/base.py`); of the
free-form `result` dict only the approval-request id is kept. -/
structure AgentResponse where
  success : Bool
  action : AgentAction
  error : Option String := none
  escalation_required : Bool := false
  escalation_reason : Option String := none
  approval_request_id : Option String := none

/-- State of `GovernanceEngine`: the composed managers, the configured
fallback confidence threshold and the registered action handlers (keyed by
`f"{agent_type.value}_{action_type}"`).  Hooks are isolated best-effort side
effects and are not part of the state. -/
structure GovernanceEngine where
  confidence_threshold : ℚ := 0.85
  risk_gates : RiskGateManager := .init
  audit_trail : AuditTrailManager := .empty
  rbac : RBACManager := .init
  action_handlers : List (String × (AgentAction → ExecResult)) := []

/-- Handler dispatch (`GovernanceEngine._execute_action`): absence of a
handler yields a neutral success; handler exceptions are modelled as failing
results. -/
def executeAction (e : GovernanceEngine) (action : AgentAction) : ExecResult :=
  match alookup e.action_handlers (action.agent_type.value ++ "_" ++ action.action_type) with
  | some handler => handler action
  | none => { success := true }

/-- Fresh uuids consumed by one `process_action` call. -/
structure FreshIds where
  log_id : String
  access_id : String
  request_id : String
  escalation_id : String

/-- Steps (3)-(9) of `GovernanceEngine.process_action`: risk classification,
fallback evaluation, gate evaluation, audit logging, execution and outcome
update.  `none` models the configuration-integrity fault of an empty rules
dict. -/
def processActionRiskPhase (e : GovernanceEngine) (action : AgentAction)
    (user_id : String) (session_id ip_address : Option String) (ids : FreshIds) :
    Option (GovernanceEngine × AgentResponse) :=
  let a1 := { action with risk_level := classifyRisk action }
  let fb := fallbackEvaluate e.confidence_threshold a1
  if fb.1 ∧ fb.2.1.isSome then
    let a2 := (fallbackTrigger a1 ids.escalation_id).1
    let audit1 := (logEscalation e.audit_trail ids.escalation_id a2.agent_type
      a2.action_id ((fb.2.2).getD "Automatic escalation") a2.confidence_score
      a2.risk_level none).1
    let audit2 := (logAction audit1 a2 ids.log_id session_id (some user_id) ip_address).1
    some ({ e with audit_trail := audit2 },
      { success := false, action := a2, escalation_required := true,
        escalation_reason := fb.2.2,
        error := none, approval_request_id := none })
  else
    match evaluateGate e.risk_gates a1 ids.request_id with
    | none => none
    | some gr =>
      let audit1 := (logAction e.audit_trail gr.action ids.log_id session_id
        (some user_id) ip_address).1
      let entry := (logAction e.audit_trail gr.action ids.log_id session_id
        (some user_id) ip_address).2
      let e1 := { e with risk_gates := gr.manager, audit_trail := audit1 }
      if !gr.can_proceed then
        match gr.approval_request with
        | some req =>
          some (e1, { success := false, action := gr.action,
                      approval_request_id := some req.request_id })
        | none =>
          some (e1, { success := false, action := gr.action,
                      error := some "Action blocked by risk gate" })
      else
        let result := executeAction e1 gr.action
        if result.success then
          let a4 := { gr.action with status := .COMPLETED }
          let audit2 := (updateLogOutcome e1.audit_trail entry.log_id "SUCCESS"
            .COMPLETED none).1
          some ({ e1 with audit_trail := audit2 }, { success := true, action := a4 })
        else
          let a4 := { gr.action with status := .FAILED }
          let audit2 := (updateLogOutcome e1.audit_trail entry.log_id
            (result.error.getD "FAILED") .FAILED none).1
          some ({ e1 with audit_trail := audit2 }, { success := false, action := a4 })

/-- The `process_action` pipeline (`GovernanceEngine.process_action`):
(1) RBAC permission check (deny ⇒ audit-log + REJECTED); (2) subject-access
check when the action has a patient id (deny ⇒ access log + REJECTED);
then the risk phase. -/
def processAction (e : GovernanceEngine) (action : AgentAction) (user_id : String)
    (session_id ip_address : Option String) (ids : FreshIds) :
    Option (GovernanceEngine × AgentResponse) :=
  let perm := checkPermission e.rbac user_id action.agent_type action.action_type true false
  if !perm.1 then
    let a' := { action with status := ActionStatus.REJECTED }
    let audit1 := (logAction e.audit_trail a' ids.log_id session_id
      (some user_id) ip_address).1
    some ({ e with audit_trail := audit1 },
      { success := false, action := a', error := some ("Permission denied: " ++ perm.2) })
  else
    match action.patient_id with
    | some pid =>
      let acc := checkPatientAccess e.rbac user_id pid "WRITE"
      if !acc.1 then
        let a' := { action with status := ActionStatus.REJECTED }
        let role_str :=
          match alookup e.rbac.users user_id with
          | some u => u.role.value
          | none => "UNKNOWN"
        let audit1 := (logAccess e.audit_trail ids.access_id user_id role_str pid
          action.action_type "WRITE" false (some acc.2) ip_address session_id).1
        some ({ e with audit_trail := audit1 },
          { success := false, action := a',
            error := some ("Patient access denied: " ++ acc.2) })
      else processActionRiskPhase e action user_id session_id ip_address ids
    | none => processActionRiskPhase e action user_id session_id ip_address ids

/-- The amended one-entry audit property of a completed `process_action`
call: either the call took the subject-access-denial branch — the audit-log
store is untouched and exactly one access log was added — or the call added
exactly one audit log entry, stored under the fresh log id, whose status
equals the status of the action returned to the caller. -/
def OneAuditEntry (e : GovernanceEngine) (ids : FreshIds)
    (er : GovernanceEngine × AgentResponse) : Prop :=
  (er.1.audit_trail.audit_logs = e.audit_trail.audit_logs ∧
    er.1.audit_trail.access_logs.length = e.audit_trail.access_logs.length + 1) ∨
  (er.1.audit_trail.audit_logs.length = e.audit_trail.audit_logs.length + 1 ∧
    (alookup er.1.audit_trail.audit_logs ids.log_id).map (fun en => en.status) =
      some er.2.action.status)

/-! Concrete fixtures used by witnesses and counterexamples. -/

/-- A critical-risk action with confidence above the CRITICAL threshold. -/
def critAction : AgentAction :=
  { action_id := "act-crit", agent_type := .MEDICATION,
    action_type := "code_blue_activation", risk_level := .CRITICAL,
    confidence_score := 0.99, rationale := "cardiac arrest detected" }

/-- An action whose type classifies to CRITICAL but whose stored risk level
still holds the default LOW: the truthiness of the str-enum field in
`action.risk_level or self.classify_risk(action)` makes `evaluate_gate`
ignore the classification. -/
def classifiedCriticalAction : AgentAction :=
  { action_id := "act-cc", agent_type := .MEDICATION,
    action_type := "code_blue_activation", confidence_score := 0.9 }

/-- Manager holding the two-approver request created for `critAction`. -/
def c2Manager : RiskGateManager :=
  match evaluateGate RiskGateManager.init critAction "req-c2" with
  | some gr => gr.manager
  | none => RiskGateManager.init

/-- First approval on the two-approver request. -/
def c2Step1 : RiskGateManager × Bool :=
  processApproval c2Manager "req-c2" "approver-1" true none

/-- Second (distinct) approval. -/
def c2Step2 : RiskGateManager × Bool :=
  processApproval c2Step1.1 "req-c2" "approver-2" true none

/-- Third approval, issued on the already-APPROVED request. -/
def c2Step3 : RiskGateManager × Bool :=
  processApproval c2Step2.1 "req-c2" "approver-3" true none

/-- A high-risk action with confidence above the HIGH threshold. -/
def highAction : AgentAction :=
  { action_id := "act-high", agent_type := .MEDICATION,
    action_type := "medication_change", risk_level := .HIGH,
    confidence_score := 0.99 }

/-- Manager holding the single-approver request created for `highAction`. -/
def c3Manager : RiskGateManager :=
  match evaluateGate RiskGateManager.init highAction "req-c3" with
  | some gr => gr.manager
  | none => RiskGateManager.init

/-- A rejection with no prior approvals. -/
def c3Step1 : RiskGateManager × Bool :=
  processApproval c3Manager "req-c3" "rejector-1" false (some "unsafe")

/-- An approval issued after the rejection. -/
def c3Step2 : RiskGateManager × Bool :=
  processApproval c3Step1.1 "req-c3" "approver-1" true none

/-- A deactivated nurse manager holding a permission override. -/
def inactiveUser : User :=
  { user_id := "user-6", username := "nm1", role := .NURSE_MANAGER,
    is_active := false, permissions_override := ["medication_change"] }

/-- RBAC manager knowing only the deactivated user. -/
def c6Rbac : RBACManager :=
  { users := [("user-6", inactiveUser)], perm_cache := defaultPermissionCache }

/-- An outcome sample for the `(INTAKE, register_patient)` key. -/
def mkOutcome (group : String) (v : ℚ) : OutcomeRecord :=
  { agent_type := .INTAKE, action_type := "register_patient",
    demographics := [("gender", group)], outcome := "NEGATIVE",
    outcome_value := some v }

/-- Ten samples, five per group, all with outcome value zero. -/
def zeroRateMonitor : BiasMonitor :=
  (List.replicate 5 (mkOutcome "groupA" 0) ++
    List.replicate 5 (mkOutcome "groupB" 0)).foldl recordActionOutcome {}

/-- Nine samples: below the ten-record total threshold. -/
def smallSampleMonitor : BiasMonitor :=
  (List.replicate 5 (mkOutcome "groupA" 1) ++
    List.replicate 4 (mkOutcome "groupB" 1)).foldl recordActionOutcome {}

/-- An active billing-staff user. -/
def billingUser : User :=
  { user_id := "user-bill", username := "bills", role := .BILLING_STAFF }

/-- Engine whose RBAC manager knows only the billing-staff user. -/
def c1Engine : GovernanceEngine :=
  { rbac := { users := [("user-bill", billingUser)], perm_cache := defaultPermissionCache } }

/-- A billing action on a patient record: the permission check passes but the
WRITE subject-access check denies for billing staff. -/
def c1Action : AgentAction :=
  { action_id := "act-claim", agent_type := .BILLING, action_type := "submit_claim",
    patient_id := some "patient-1", confidence_score := 1 }

/-- Fresh uuids for one pipeline call. -/
def c1Ids : FreshIds :=
  { log_id := "log-1", access_id := "acc-1", request_id := "req-1",
    escalation_id := "esc-1" }

/-- An active system administrator. -/
def adminUser : User :=
  { user_id := "user-adm", username := "adm", role := .SYSTEM_ADMIN }

/-- Engine whose RBAC manager knows only the administrator. -/
def c1wEngine : GovernanceEngine :=
  { rbac := { users := [("user-adm", adminUser)], perm_cache := defaultPermissionCache } }

/-- A routine low-risk action that auto-executes. -/
def c1wAction : AgentAction :=
  { action_id := "act-note", agent_type := .INTAKE, action_type := "routine_note",
    patient_id := some "patient-1", confidence_score := 1 }

/-- The concrete result of the happy-path pipeline call. -/
def c1wPair : GovernanceEngine × AgentResponse :=
  (processAction c1wEngine c1wAction "user-adm" (some "sess-1") none c1Ids).getD
    (c1wEngine, { success := false, action := c1wAction })

/-- A concrete operation sequence exercising every audit-trail operation. -/
def c10Ops : List AuditOp :=
  [ .logAction c1wAction "log-1" (some "sess-1") (some "user-adm") none,
    .updateLogOutcome "log-1" "SUCCESS" .COMPLETED none,
    .recordHumanOverride "log-1" "user-adm" "manual check",
    .logAccess "acc-1" "user-adm" "SYSTEM_ADMIN" "patient-1" "routine_note" "WRITE"
      true none none (some "sess-1"),
    .logEscalation "esc-1" .INTAKE "act-note" "low confidence" 0.5 .LOW none,
    .resolveEscalation "esc-1" "user-adm" "reviewed",
    .logApiCall { call_id := "call-1", service_name := "svc", endpoint := "/x" } "log-1",
    .updateLogOutcome "log-missing" "X" .FAILED none ]

/-! Theorems.  Shared association-list lemmas first, then one theorem per
claim (with witnesses and counterexamples). -/

theorem alookup_dset_self {κ α : Type} [DecidableEq κ] (l : List (κ × α)) (k : κ) (v : α) :
    alookup (dset l k v) k = some v := by
  induction l with
  | nil => simp [dset, alookup]
  | cons p t ih =>
    obtain ⟨k', v'⟩ := p
    by_cases h : k' = k
    · simp [dset, h, alookup]
    · simp [dset, h, alookup, ih]

theorem alookup_dset_ne {κ α : Type} [DecidableEq κ] (l : List (κ × α)) (k k' : κ) (v : α)
    (h : k' ≠ k) : alookup (dset l k v) k' = alookup l k' := by
  induction l with
  | nil => simp [dset, alookup, Ne.symm h]
  | cons p t ih =>
    obtain ⟨k₀, v₀⟩ := p
    by_cases h0 : k₀ = k
    · subst h0
      simp [dset, alookup, Ne.symm h]
    · by_cases h1 : k₀ = k'
      · simp [dset, alookup, h0, h1, h]
      · simp [dset, alookup, h0, h1, ih]

theorem dset_length_of_mem {κ α : Type} [DecidableEq κ] (l : List (κ × α)) (k : κ) (v : α)
    (h : (alookup l k).isSome) : (dset l k v).length = l.length := by
  induction l with
  | nil => simp [alookup] at h
  | cons p t ih =>
    obtain ⟨k', v'⟩ := p
    by_cases hk : k' = k
    · simp [dset, hk]
    · simp [alookup, hk] at h
      simp [dset, hk, ih h]

theorem dset_length_of_fresh {κ α : Type} [DecidableEq κ] (l : List (κ × α)) (k : κ) (v : α)
    (h : alookup l k = none) : (dset l k v).length = l.length + 1 := by
  induction l with
  | nil => simp [dset]
  | cons p t ih =>
    obtain ⟨k', v'⟩ := p
    by_cases hk : k' = k
    · simp [alookup, hk] at h
    · simp [alookup, hk] at h
      simp [dset, hk, ih h]

unseal Rat.mul Rat.inv Rat.ofScientific Rat.add Rat.sub in
/-- C4 (amended): for every action whose stored risk level is CRITICAL — as
the engine pipeline sets it from `classify_risk` before gating —
`evaluate_gate` under the default rule set returns `can_proceed = false`
together with a non-null approval request, for every confidence score in
[0, 1].  (An action that merely classifies to CRITICAL but carries a
different stored level is gated by the stored level; see the
counterexample.) -/
theorem evaluateGate_critical_blocks (a : AgentAction) (rid : String)
    (hrl : a.risk_level = .CRITICAL)
    (h0 : 0 ≤ a.confidence_score) (h1 : a.confidence_score ≤ 1) :
    (evaluateGate RiskGateManager.init a rid).map
      (fun gr => (gr.can_proceed, gr.approval_request.isSome)) = some (false, true) := by
  have hrule : getRuleForRiskLevel RiskGateManager.init .CRITICAL =
      some (defaultRuleList.get ⟨3, by decide⟩).2 := by decide
  simp only [evaluateGate, hrl, hrule]
  split
  · simp [createApprovalRequest]
  · simp [createApprovalRequest, defaultRuleList]

unseal Rat.mul Rat.inv Rat.ofScientific Rat.add Rat.sub in
/-- Witness for C4 at a concrete critical action. -/
theorem evaluateGate_critical_blocks_witness :
    critAction.risk_level = .CRITICAL ∧
    (0 : ℚ) ≤ critAction.confidence_score ∧ critAction.confidence_score ≤ 1 ∧
    (evaluateGate RiskGateManager.init critAction "req-w4").map
      (fun gr => (gr.can_proceed, gr.approval_request.isSome)) = some (false, true) :=
  ⟨rfl, by decide, by decide,
    evaluateGate_critical_blocks critAction "req-w4" rfl (by decide) (by decide)⟩

unseal Rat.mul Rat.inv Rat.ofScientific Rat.add Rat.sub in
/-- C4 counterexample: an action whose type classifies to CRITICAL but whose
stored risk level is the default LOW is gated as LOW — `evaluate_gate`
returns `can_proceed = true` with no approval request at confidence 0.9,
because `action.risk_level or self.classify_risk(action)` never reaches the
classification (str-enum members are always truthy). -/
theorem evaluateGate_classified_critical_not_blocked :
    classifyRisk classifiedCriticalAction = .CRITICAL ∧
    classifiedCriticalAction.risk_level = .LOW ∧
    (0 : ℚ) ≤ classifiedCriticalAction.confidence_score ∧
    classifiedCriticalAction.confidence_score ≤ 1 ∧
    (evaluateGate RiskGateManager.init classifiedCriticalAction "req-x4").map
      (fun gr => (gr.can_proceed, gr.approval_request)) = some (true, none) := by
  decide

unseal Rat.mul Rat.inv Rat.ofScientific Rat.add Rat.sub in
/-- C5: under the default rule set, every action with risk level LOW and
confidence at least the LOW rule threshold 0.7 passes the gate with
`can_proceed = true` and no approval request. -/
theorem evaluateGate_low_confident_proceeds (a : AgentAction) (rid : String)
    (hrl : a.risk_level = .LOW) (hc : (0.7 : ℚ) ≤ a.confidence_score) :
    (evaluateGate RiskGateManager.init a rid).map
      (fun gr => (gr.can_proceed, gr.approval_request)) = some (true, none) := by
  have hrule : getRuleForRiskLevel RiskGateManager.init .LOW =
      some (defaultRuleList.get ⟨0, by decide⟩).2 := by decide
  simp only [evaluateGate, hrl, hrule]
  rw [if_neg (by simpa [defaultRuleList] using not_lt.mpr hc)]
  simp [defaultRuleList]

unseal Rat.mul Rat.inv Rat.ofScientific Rat.add Rat.sub in
/-- Witness for C5 at a concrete routine action with confidence 0.7. -/
theorem evaluateGate_low_confident_proceeds_witness :
    (0.7 : ℚ) ≤ (0.7 : ℚ) ∧
    (evaluateGate RiskGateManager.init
        { action_id := "act-w5", agent_type := .SCHEDULING,
          action_type := "schedule_appointment", risk_level := .LOW,
          confidence_score := 0.7 } "req-w5").map
      (fun gr => (gr.can_proceed, gr.approval_request)) = some (true, none) :=
  ⟨le_refl _, evaluateGate_low_confident_proceeds _ "req-w5" rfl (le_refl _)⟩

/-- C6: a registered user whose `is_active` flag is false fails
`check_permission` and `check_patient_access` for every agent type, action,
capability requirement and access type, even when the action is in the
permission-override list. -/
theorem inactive_user_denied (m : RBACManager) (uid : String) (u : User)
    (hu : alookup m.users uid = some u) (hinact : u.is_active = false)
    (ag : AgentType) (action : String) (rw ra : Bool) (pid access_type : String) :
    (checkPermission m uid ag action rw ra).1 = false ∧
    (checkPatientAccess m uid pid access_type).1 = false := by
  constructor
  · simp [checkPermission, hu, hinact]
  · simp [checkPatientAccess, hu, hinact]

/-- Witness for C6: the deactivated user is denied even for the overridden
action. -/
theorem inactive_user_denied_witness :
    alookup c6Rbac.users "user-6" = some inactiveUser ∧
    inactiveUser.is_active = false ∧
    "medication_change" ∈ inactiveUser.permissions_override ∧
    (checkPermission c6Rbac "user-6" .MEDICATION "medication_change" true false).1 = false ∧
    (checkPatientAccess c6Rbac "user-6" "patient-1" "WRITE").1 = false := by
  refine ⟨rfl, rfl, by decide, ?_⟩
  exact inactive_user_denied c6Rbac "user-6" inactiveUser rfl rfl
    .MEDICATION "medication_change" true false "patient-1" "WRITE"

/-- C9: `update_log_outcome` and `record_human_override` on a log id absent
from the audit store return the failure indicator `false` and leave the
whole audit-trail state unchanged. -/
theorem missing_log_id_noop (st : AuditTrailManager) (lid : String)
    (h : alookup st.audit_logs lid = none)
    (outcome : String) (status : ActionStatus) (mods : Option (List Modification))
    (oby oreason : String) :
    updateLogOutcome st lid outcome status mods = (st, false) ∧
    recordHumanOverride st lid oby oreason = (st, false) := by
  constructor
  · simp [updateLogOutcome, h]
  · simp [recordHumanOverride, h]

/-- Witness for C9 at the empty audit trail. -/
theorem missing_log_id_noop_witness :
    alookup AuditTrailManager.empty.audit_logs "log-missing" = none ∧
    updateLogOutcome AuditTrailManager.empty "log-missing" "X" .COMPLETED none =
      (AuditTrailManager.empty, false) ∧
    recordHumanOverride AuditTrailManager.empty "log-missing" "user-adm" "r" =
      (AuditTrailManager.empty, false) :=
  ⟨rfl, missing_log_id_noop AuditTrailManager.empty "log-missing" rfl "X" .COMPLETED
    none "user-adm" "r"⟩

unseal Rat.mul Rat.inv Rat.ofScientific Rat.add Rat.sub in
/-- C2 (code bug): on the two-approver request created for `critAction`, the
first approval reports not-fully-approved and the second reports fully
approved, as claimed; but the third `process_approval` call on the already
APPROVED request is not a no-op: it appends a third approver id, increments
the counter to 3, and reports fully approved a second time, because
`process_approval` never checks for a terminal status. -/
theorem processApproval_third_call_not_noop :
    c2Step1.2 = false ∧
    c2Step2.2 = true ∧
    (alookup c2Step2.1.pending_approvals "req-c2").map
      (fun r => (r.status, r.current_approvals, r.approved_by)) =
      some ("APPROVED", 2, ["approver-1", "approver-2"]) ∧
    c2Step3.2 = true ∧
    (alookup c2Step3.1.pending_approvals "req-c2").map
      (fun r => (r.status, r.current_approvals, r.approved_by)) =
      some ("APPROVED", 3, ["approver-1", "approver-2", "approver-3"]) := by
  decide

unseal Rat.mul Rat.inv Rat.ofScientific Rat.add Rat.sub in
/-- C3 (code bug): a single rejection on the fresh single-approver request
sets status REJECTED, as claimed; but a subsequent approval flips the
request to APPROVED and reports it fully approved — the code never checks
for a terminal status, so a rejected request can be un-rejected. -/
theorem processApproval_unreject :
    c3Step1.2 = false ∧
    (alookup c3Step1.1.pending_approvals "req-c3").map (fun r => r.status) =
      some "REJECTED" ∧
    c3Step2.2 = true ∧
    (alookup c3Step2.1.pending_approvals "req-c3").map (fun r => r.status) =
      some "APPROVED" := by
  decide

/-- C8: whenever the total number of recorded samples for the `(agent,
action)` key is below 10 or either compared group has fewer than 5 samples,
`calculate_disparate_impact` returns no metric and leaves the monitor state
(metrics, compliance events, records) completely unchanged. -/
theorem calculateDisparateImpact_insufficient_data (m : BiasMonitor)
    (agent_type : AgentType) (aty dim pg rg : String)
    (h : (diRecords m agent_type aty).length < 10 ∨
      (diGroups m agent_type aty dim pg rg).1.length < 5 ∨
      (diGroups m agent_type aty dim pg rg).2.length < 5) :
    calculateDisparateImpact m agent_type aty dim pg rg = (m, none) := by
  rcases h with h10 | h5
  · simp [calculateDisparateImpact, h10]
  · by_cases h10 : (diRecords m agent_type aty).length < 10
    · simp [calculateDisparateImpact, h10]
    · simp only [calculateDisparateImpact, if_neg h10]
      rw [if_pos h5]

unseal Rat.mul Rat.inv Rat.ofScientific Rat.add Rat.sub in
/-- Witness for C8: nine recorded samples yield no metric and no state
change. -/
theorem calculateDisparateImpact_insufficient_data_witness :
    (diRecords smallSampleMonitor .INTAKE "register_patient").length < 10 ∧
    calculateDisparateImpact smallSampleMonitor .INTAKE "register_patient"
      "gender" "groupA" "groupB" = (smallSampleMonitor, none) :=
  ⟨by decide, calculateDisparateImpact_insufficient_data smallSampleMonitor .INTAKE
    "register_patient" "gender" "groupA" "groupB" (Or.inl (by decide))⟩

/-- C7: when the sample thresholds pass and both group outcome means are
zero, `calculate_disparate_impact` returns a metric with disparity ratio
exactly 1 (the zero-reference-rate branch), rather than attempting the
division: the division by the reference rate is reached only when that rate
is non-zero. -/
theorem calculateDisparateImpact_zero_rates (m : BiasMonitor)
    (agent_type : AgentType) (aty dim pg rg : String)
    (h10 : ¬ (diRecords m agent_type aty).length < 10)
    (h5 : ¬ ((diGroups m agent_type aty dim pg rg).1.length < 5 ∨
      (diGroups m agent_type aty dim pg rg).2.length < 5))
    (hp : qmean (diGroups m agent_type aty dim pg rg).1 = 0)
    (hr : qmean (diGroups m agent_type aty dim pg rg).2 = 0) :
    (calculateDisparateImpact m agent_type aty dim pg rg).2.map
      (fun metric => metric.disparity_ratio) = some (DisparityRatio.fin 1) := by
  simp only [calculateDisparateImpact, if_neg h10, if_neg h5, hp, hr, if_pos rfl]
  simp

unseal Rat.mul Rat.inv Rat.ofScientific Rat.add Rat.sub in
/-- Witness for C7: ten all-zero samples, five per group, produce ratio 1. -/
theorem calculateDisparateImpact_zero_rates_witness :
    qmean (diGroups zeroRateMonitor .INTAKE "register_patient" "gender"
      "groupA" "groupB").1 = 0 ∧
    qmean (diGroups zeroRateMonitor .INTAKE "register_patient" "gender"
      "groupA" "groupB").2 = 0 ∧
    (calculateDisparateImpact zeroRateMonitor .INTAKE "register_patient" "gender"
      "groupA" "groupB").2.map (fun metric => metric.disparity_ratio) =
      some (DisparityRatio.fin 1) :=
  ⟨by decide, by decide, calculateDisparateImpact_zero_rates zeroRateMonitor .INTAKE
    "register_patient" "gender" "groupA" "groupB" (by decide) (by decide)
    (by decide) (by decide)⟩

theorem logAction_fst_audit_logs (st : AuditTrailManager) (a : AgentAction)
    (lid : String) (sid uid ip : Option String) :
    (logAction st a lid sid uid ip).1.audit_logs =
      dset st.audit_logs lid (logAction st a lid sid uid ip).2 := by
  rcases hp : a.patient_id with _ | pid <;> rcases hs : sid with _ | s <;>
    simp [logAction, hp, hs]

theorem logAction_fst_access_logs (st : AuditTrailManager) (a : AgentAction)
    (lid : String) (sid uid ip : Option String) :
    (logAction st a lid sid uid ip).1.access_logs = st.access_logs := by
  rcases hp : a.patient_id with _ | pid <;> rcases hs : sid with _ | s <;>
    simp [logAction, hp, hs]

theorem logAction_snd_status (st : AuditTrailManager) (a : AgentAction)
    (lid : String) (sid uid ip : Option String) :
    (logAction st a lid sid uid ip).2.status = a.status := rfl

theorem logAction_snd_log_id (st : AuditTrailManager) (a : AgentAction)
    (lid : String) (sid uid ip : Option String) :
    (logAction st a lid sid uid ip).2.log_id = lid := rfl

theorem logEscalation_fst_audit_logs (st : AuditTrailManager) (eid : String)
    (sa : AgentType) (aid reason : String) (conf : ℚ) (rl : RiskLevel)
    (ass : Option String) :
    (logEscalation st eid sa aid reason conf rl ass).1.audit_logs = st.audit_logs := rfl

theorem logAccess_fst_audit_logs (st : AuditTrailManager) (aid uid ur pid rt act : String)
    (ok : Bool) (reason : Option String) (ip sid : Option String) :
    (logAccess st aid uid ur pid rt act ok reason ip sid).1.audit_logs = st.audit_logs := rfl

theorem logAccess_fst_access_logs (st : AuditTrailManager) (aid uid ur pid rt act : String)
    (ok : Bool) (reason : Option String) (ip sid : Option String) :
    (logAccess st aid uid ur pid rt act ok reason ip sid).1.access_logs =
      dset st.access_logs aid (logAccess st aid uid ur pid rt act ok reason ip sid).2 := rfl

theorem updateLogOutcome_found (st : AuditTrailManager) (lid outcome : String)
    (status : ActionStatus) (en : AuditLogEntry)
    (h : alookup st.audit_logs lid = some en) :
    (updateLogOutcome st lid outcome status none).1.audit_logs =
      dset st.audit_logs lid
        { en with
          outcome := outcome,
          status := status,
          modifications := en.modifications } := by
  simp [updateLogOutcome, h]

/-- The risk phase of the pipeline adds exactly one audit entry, stored
under the fresh log id, with the returned terminal status. -/
theorem riskPhase_one_entry (e : GovernanceEngine) (a : AgentAction) (uid : String)
    (sid ip : Option String) (ids : FreshIds)
    (hlog : alookup e.audit_trail.audit_logs ids.log_id = none)
    (er : GovernanceEngine × AgentResponse)
    (h : processActionRiskPhase e a uid sid ip ids = some er) :
    er.1.audit_trail.audit_logs.length = e.audit_trail.audit_logs.length + 1 ∧
    (alookup er.1.audit_trail.audit_logs ids.log_id).map (fun en => en.status) =
      some er.2.action.status := by
  simp only [processActionRiskPhase] at h
  split at h
  · -- escalation branch
    rw [Option.some.injEq] at h
    subst h
    constructor
    · rw [logAction_fst_audit_logs, logEscalation_fst_audit_logs,
        dset_length_of_fresh _ _ _ hlog]
    · rw [logAction_fst_audit_logs, alookup_dset_self, Option.map_some',
        logAction_snd_status]
  · -- gate phase
    split at h
    · exact absurd h (by simp)
    · rename_i gr hgr
      split at h
      · -- blocked by the gate
        split at h <;>
          (rw [Option.some.injEq] at h; subst h; constructor)
        · rw [logAction_fst_audit_logs, dset_length_of_fresh _ _ _ hlog]
        · rw [logAction_fst_audit_logs, alookup_dset_self, Option.map_some',
            logAction_snd_status]
        · rw [logAction_fst_audit_logs, dset_length_of_fresh _ _ _ hlog]
        · rw [logAction_fst_audit_logs, alookup_dset_self, Option.map_some',
            logAction_snd_status]
      · -- execute path
        have hfound : alookup (logAction e.audit_trail gr.action ids.log_id sid
            (some uid) ip).1.audit_logs ids.log_id =
            some (logAction e.audit_trail gr.action ids.log_id sid (some uid) ip).2 := by
          rw [logAction_fst_audit_logs, alookup_dset_self]
        split at h <;>
          (rw [Option.some.injEq] at h; subst h; constructor)
        · rw [logAction_snd_log_id, updateLogOutcome_found _ _ _ _ _ hfound,
            dset_length_of_mem _ _ _ (by rw [hfound]; rfl),
            logAction_fst_audit_logs, dset_length_of_fresh _ _ _ hlog]
        · rw [logAction_snd_log_id, updateLogOutcome_found _ _ _ _ _ hfound,
            alookup_dset_self, Option.map_some']
        · rw [logAction_snd_log_id, updateLogOutcome_found _ _ _ _ _ hfound,
            dset_length_of_mem _ _ _ (by rw [hfound]; rfl),
            logAction_fst_audit_logs, dset_length_of_fresh _ _ _ hlog]
        · rw [logAction_snd_log_id, updateLogOutcome_found _ _ _ _ _ hfound,
            alookup_dset_self, Option.map_some']

/-- C1 (amended): every completed `process_action` call either took the
subject-access-denial branch — producing one access log and no audit log
entry — or produced exactly one audit log entry whose status matches the
status of the action returned to the caller; provided the generated log and
access ids are fresh for the engine state (uuid freshness). -/
theorem processAction_one_audit_entry (e : GovernanceEngine) (a : AgentAction)
    (uid : String) (sid ip : Option String) (ids : FreshIds)
    (hlog : alookup e.audit_trail.audit_logs ids.log_id = none)
    (hacc : alookup e.audit_trail.access_logs ids.access_id = none)
    (er : GovernanceEngine × AgentResponse)
    (h : processAction e a uid sid ip ids = some er) :
    OneAuditEntry e ids er := by
  simp only [processAction] at h
  split at h
  · -- permission denial
    rw [Option.some.injEq] at h
    subst h
    refine Or.inr ⟨?_, ?_⟩
    · rw [logAction_fst_audit_logs, dset_length_of_fresh _ _ _ hlog]
    · rw [logAction_fst_audit_logs, alookup_dset_self, Option.map_some',
        logAction_snd_status]
  · split at h
    · rename_i pid hpid
      split at h
      · -- subject-access denial
        rw [Option.some.injEq] at h
        subst h
        refine Or.inl ⟨rfl, ?_⟩
        · rw [logAccess_fst_access_logs, dset_length_of_fresh _ _ _ hacc]
      · exact Or.inr (riskPhase_one_entry e a uid sid ip ids hlog er h)
    · exact Or.inr (riskPhase_one_entry e a uid sid ip ids hlog er h)

unseal Rat.mul Rat.inv Rat.ofScientific Rat.add Rat.sub in
/-- Witness for C1 (amended) on the auto-approved happy path: the call adds
exactly one audit entry with the returned COMPLETED status. -/
theorem processAction_one_audit_entry_witness :
    alookup c1wEngine.audit_trail.audit_logs c1Ids.log_id = none ∧
    alookup c1wEngine.audit_trail.access_logs c1Ids.access_id = none ∧
    processAction c1wEngine c1wAction "user-adm" (some "sess-1") none c1Ids =
      some c1wPair ∧
    OneAuditEntry c1wEngine c1Ids c1wPair :=
  ⟨rfl, rfl, by rfl,
    processAction_one_audit_entry c1wEngine c1wAction "user-adm" (some "sess-1") none
      c1Ids rfl rfl c1wPair (by rfl)⟩

unseal Rat.mul Rat.inv Rat.ofScientific Rat.add Rat.sub in
/-- C1 counterexample: the subject-access-denial branch of `process_action`
terminates with status REJECTED but writes no `AuditLogEntry` at all — it
records an `AccessLog` instead — refuting the claim that every terminal
branch produces exactly one audit entry. -/
theorem processAction_access_denial_no_entry :
    (processAction c1Engine c1Action "user-bill" (some "sess-1") none c1Ids).map
      (fun p => (p.1.audit_trail.audit_logs.length,
                 p.1.audit_trail.access_logs.length,
                 p.2.action.status)) = some (0, 1, .REJECTED) ∧
    c1Engine.audit_trail.audit_logs.length = 0 := by
  exact ⟨by decide, rfl⟩

theorem alookup_dset_isSome_mono {κ α : Type} [DecidableEq κ] (l : List (κ × α))
    (k₀ k : κ) (v : α) (h : (alookup l k).isSome) :
    (alookup (dset l k₀ v) k).isSome := by
  by_cases hk : k = k₀
  · subst hk
    rw [alookup_dset_self]
    rfl
  · rw [alookup_dset_ne _ _ _ _ hk]
    exact h

theorem mem_idsOf_dappend {κ : Type} [DecidableEq κ] (l : List (κ × List String))
    (k₀ k : κ) (y x : String) (h : x ∈ idsOf l k) :
    x ∈ idsOf (dappend l k₀ y) k := by
  by_cases hk : k = k₀
  · subst hk
    unfold idsOf dappend
    rw [alookup_dset_self, Option.getD_some]
    exact List.mem_append_left _ h
  · unfold idsOf dappend
    rw [alookup_dset_ne _ _ _ _ hk]
    exact h

theorem mem_idsOf_dappend_self {κ : Type} [DecidableEq κ] (l : List (κ × List String))
    (k : κ) (x : String) : x ∈ idsOf (dappend l k x) k := by
  unfold idsOf dappend
  rw [alookup_dset_self, Option.getD_some]
  exact List.mem_append_right _ (List.mem_singleton.mpr rfl)

theorem mem_idsOf_dappend_elim {κ : Type} [DecidableEq κ] (l : List (κ × List String))
    (k₀ k : κ) (y x : String) (h : x ∈ idsOf (dappend l k₀ y) k) :
    x ∈ idsOf l k ∨ x = y := by
  by_cases hk : k = k₀
  · subst hk
    unfold idsOf dappend at h
    rw [alookup_dset_self, Option.getD_some] at h
    rcases List.mem_append.mp h with h1 | h1
    · exact Or.inl h1
    · exact Or.inr (List.mem_singleton.mp h1)
  · unfold idsOf dappend at h
    rw [alookup_dset_ne _ _ _ _ hk] at h
    exact Or.inl h

theorem mem_optAppend_of {κ : Type} [DecidableEq κ] (l : List (κ × List String))
    (o : Option κ) (lid : String) (k : κ) (x : String) (h : x ∈ idsOf l k) :
    x ∈ idsOf (optAppend l o lid) k := by
  cases o with
  | none => exact h
  | some k₀ => exact mem_idsOf_dappend l k₀ k lid x h

theorem mem_optAppend_elim {κ : Type} [DecidableEq κ] (l : List (κ × List String))
    (o : Option κ) (lid : String) (k : κ) (x : String)
    (h : x ∈ idsOf (optAppend l o lid) k) : x ∈ idsOf l k ∨ x = lid := by
  cases o with
  | none => exact Or.inl h
  | some k₀ => exact mem_idsOf_dappend_elim l k₀ k lid x h

theorem mem_optAppend_self {κ : Type} [DecidableEq κ] (l : List (κ × List String))
    (o : Option κ) (lid : String) (k : κ) (h : o = some k) :
    lid ∈ idsOf (optAppend l o lid) k := by
  subst h
  exact mem_idsOf_dappend_self l k lid

theorem logAction_fst_patient_index (st : AuditTrailManager) (a : AgentAction)
    (lid : String) (sid uid ip : Option String) :
    (logAction st a lid sid uid ip).1.log_index_by_patient =
      optAppend st.log_index_by_patient a.patient_id lid := by
  rcases hp : a.patient_id with _ | pid <;> rcases hs : sid with _ | s <;>
    simp [logAction, optAppend, hp, hs]

theorem logAction_fst_agent_index (st : AuditTrailManager) (a : AgentAction)
    (lid : String) (sid uid ip : Option String) :
    (logAction st a lid sid uid ip).1.log_index_by_agent =
      dappend st.log_index_by_agent a.agent_type lid := by
  rcases hp : a.patient_id with _ | pid <;> rcases hs : sid with _ | s <;>
    simp [logAction, hp, hs]

theorem logAction_fst_session_index (st : AuditTrailManager) (a : AgentAction)
    (lid : String) (sid uid ip : Option String) :
    (logAction st a lid sid uid ip).1.log_index_by_session =
      optAppend st.log_index_by_session sid lid := by
  rcases hp : a.patient_id with _ | pid <;> rcases hs : sid with _ | s <;>
    simp [logAction, optAppend, hp, hs]

theorem alookup_attachApiCall (l : List (String × AuditLogEntry)) (aid cid k : String) :
    alookup (attachApiCall l aid cid) k = alookup l k ∨
    ∃ e, alookup l k = some e ∧
      alookup (attachApiCall l aid cid) k =
        some { e with api_calls := e.api_calls ++ [cid] } := by
  induction l with
  | nil => exact Or.inl rfl
  | cons p t ih =>
    obtain ⟨k', e⟩ := p
    simp only [attachApiCall]
    split_ifs with hm
    · by_cases hk : k' = k
      · subst hk
        exact Or.inr ⟨e, by simp [alookup], by simp [alookup]⟩
      · refine Or.inl ?_
        simp [alookup, hk]
    · by_cases hk : k' = k
      · subst hk
        refine Or.inl ?_
        simp [alookup]
      · rcases ih with h1 | ⟨e₀, he₀, h2⟩
        · refine Or.inl ?_
          simp [alookup, hk, h1]
        · refine Or.inr ⟨e₀, ?_, ?_⟩ <;> simp [alookup, hk, he₀, h2]

/-- Index integrity is preserved by `log_action`. -/
theorem indexOk_logAction (st : AuditTrailManager) (a : AgentAction) (lid : String)
    (sid uid ip : Option String) (h : IndexOk st) :
    IndexOk (logAction st a lid sid uid ip).1 := by
  have hpd : (logAction st a lid sid uid ip).2.patient_id = a.patient_id := rfl
  have hag : (logAction st a lid sid uid ip).2.agent_type = a.agent_type := rfl
  have hsd : (logAction st a lid sid uid ip).2.session_id = sid := rfl
  constructor
  · intro pid x hx
    rw [logAction_fst_patient_index] at hx
    rw [logAction_fst_audit_logs]
    rcases mem_optAppend_elim _ _ _ _ _ hx with hold | rfl
    · exact alookup_dset_isSome_mono _ _ _ _ (h.patient_closed pid x hold)
    · rw [alookup_dset_self]
      rfl
  · intro ag x hx
    rw [logAction_fst_agent_index] at hx
    rw [logAction_fst_audit_logs]
    rcases mem_idsOf_dappend_elim _ _ _ _ _ hx with hold | rfl
    · exact alookup_dset_isSome_mono _ _ _ _ (h.agent_closed ag x hold)
    · rw [alookup_dset_self]
      rfl
  · intro sd x hx
    rw [logAction_fst_session_index] at hx
    rw [logAction_fst_audit_logs]
    rcases mem_optAppend_elim _ _ _ _ _ hx with hold | rfl
    · exact alookup_dset_isSome_mono _ _ _ _ (h.session_closed sd x hold)
    · rw [alookup_dset_self]
      rfl
  · intro x e hxe pid hpid
    rw [logAction_fst_audit_logs] at hxe
    rw [logAction_fst_patient_index]
    by_cases hx : x = lid
    · subst hx
      rw [alookup_dset_self] at hxe
      obtain rfl := Option.some.inj hxe
      exact mem_optAppend_self _ _ _ _ (hpd ▸ hpid)
    · rw [alookup_dset_ne _ _ _ _ hx] at hxe
      exact mem_optAppend_of _ _ _ _ _ (h.entry_in_patient x e hxe pid hpid)
  · intro x e hxe
    rw [logAction_fst_audit_logs] at hxe
    rw [logAction_fst_agent_index]
    by_cases hx : x = lid
    · subst hx
      rw [alookup_dset_self] at hxe
      obtain rfl := Option.some.inj hxe
      rw [hag]
      exact mem_idsOf_dappend_self _ _ _
    · rw [alookup_dset_ne _ _ _ _ hx] at hxe
      exact mem_idsOf_dappend _ _ _ _ _ (h.entry_in_agent x e hxe)
  · intro x e hxe sd hsid
    rw [logAction_fst_audit_logs] at hxe
    rw [logAction_fst_session_index]
    by_cases hx : x = lid
    · subst hx
      rw [alookup_dset_self] at hxe
      obtain rfl := Option.some.inj hxe
      exact mem_optAppend_self _ _ _ _ (hsd ▸ hsid)
    · rw [alookup_dset_ne _ _ _ _ hx] at hxe
      exact mem_optAppend_of _ _ _ _ _ (h.entry_in_session x e hxe sd hsid)

/-- Index integrity is preserved by an in-place entry rewrite that keeps the
indexed fields (patient id, agent type, session id) unchanged. -/
theorem indexOk_entry_update (st : AuditTrailManager) (lid : String)
    (en en' : AuditLogEntry) (hfound : alookup st.audit_logs lid = some en)
    (hpd : en'.patient_id = en.patient_id) (hag : en'.agent_type = en.agent_type)
    (hsd : en'.session_id = en.session_id)
    (idx_p : List (String × List String)) (idx_a : List (AgentType × List String))
    (idx_s : List (String × List String))
    (hip : idx_p = st.log_index_by_patient) (hia : idx_a = st.log_index_by_agent)
    (his : idx_s = st.log_index_by_session) (h : IndexOk st) (st' : AuditTrailManager)
    (hlogs : st'.audit_logs = dset st.audit_logs lid en')
    (hp : st'.log_index_by_patient = idx_p) (ha : st'.log_index_by_agent = idx_a)
    (hs : st'.log_index_by_session = idx_s) : IndexOk st' := by
  subst hip hia his
  constructor
  · intro pid x hx
    rw [hp] at hx
    rw [hlogs]
    exact alookup_dset_isSome_mono _ _ _ _ (h.patient_closed pid x hx)
  · intro ag x hx
    rw [ha] at hx
    rw [hlogs]
    exact alookup_dset_isSome_mono _ _ _ _ (h.agent_closed ag x hx)
  · intro sd x hx
    rw [hs] at hx
    rw [hlogs]
    exact alookup_dset_isSome_mono _ _ _ _ (h.session_closed sd x hx)
  · intro x e hxe pid hpid
    rw [hlogs] at hxe
    rw [hp]
    by_cases hx : x = lid
    · subst hx
      rw [alookup_dset_self] at hxe
      obtain rfl := Option.some.inj hxe
      exact h.entry_in_patient _ en hfound pid (hpd ▸ hpid)
    · rw [alookup_dset_ne _ _ _ _ hx] at hxe
      exact h.entry_in_patient x e hxe pid hpid
  · intro x e hxe
    rw [hlogs] at hxe
    rw [ha]
    by_cases hx : x = lid
    · subst hx
      rw [alookup_dset_self] at hxe
      obtain rfl := Option.some.inj hxe
      rw [hag]
      exact h.entry_in_agent _ en hfound
    · rw [alookup_dset_ne _ _ _ _ hx] at hxe
      exact h.entry_in_agent x e hxe
  · intro x e hxe sd hsid
    rw [hlogs] at hxe
    rw [hs]
    by_cases hx : x = lid
    · subst hx
      rw [alookup_dset_self] at hxe
      obtain rfl := Option.some.inj hxe
      exact h.entry_in_session _ en hfound sd (hsd ▸ hsid)
    · rw [alookup_dset_ne _ _ _ _ hx] at hxe
      exact h.entry_in_session x e hxe sd hsid

/-- Index integrity is preserved by every audit-trail operation. -/
theorem indexOk_step (st : AuditTrailManager) (op : AuditOp) (h : IndexOk st) :
    IndexOk (st.step op) := by
  cases op with
  | logAction a lid sid uid ip => exact indexOk_logAction st a lid sid uid ip h
  | logApiCall ac aid =>
    constructor
    · intro pid x hx
      rcases alookup_attachApiCall st.audit_logs aid ac.call_id x with heq | ⟨e, he, heq⟩
      · exact (heq.symm ▸ h.patient_closed pid x hx : _)
      · simp only [AuditTrailManager.step, logApiCall]
        rw [heq]
        rfl
    · intro ag x hx
      rcases alookup_attachApiCall st.audit_logs aid ac.call_id x with heq | ⟨e, he, heq⟩
      · exact (heq.symm ▸ h.agent_closed ag x hx : _)
      · simp only [AuditTrailManager.step, logApiCall]
        rw [heq]
        rfl
    · intro sd x hx
      rcases alookup_attachApiCall st.audit_logs aid ac.call_id x with heq | ⟨e, he, heq⟩
      · exact (heq.symm ▸ h.session_closed sd x hx : _)
      · simp only [AuditTrailManager.step, logApiCall]
        rw [heq]
        rfl
    · intro x e hxe pid hpid
      rcases alookup_attachApiCall st.audit_logs aid ac.call_id x with heq | ⟨e₀, he₀, heq⟩
      · rw [show (st.step (.logApiCall ac aid)).audit_logs =
          attachApiCall st.audit_logs aid ac.call_id from rfl, heq] at hxe
        exact h.entry_in_patient x e hxe pid hpid
      · rw [show (st.step (.logApiCall ac aid)).audit_logs =
          attachApiCall st.audit_logs aid ac.call_id from rfl, heq] at hxe
        obtain rfl := Option.some.inj hxe
        exact h.entry_in_patient x e₀ he₀ pid hpid
    · intro x e hxe
      rcases alookup_attachApiCall st.audit_logs aid ac.call_id x with heq | ⟨e₀, he₀, heq⟩
      · rw [show (st.step (.logApiCall ac aid)).audit_logs =
          attachApiCall st.audit_logs aid ac.call_id from rfl, heq] at hxe
        exact h.entry_in_agent x e hxe
      · rw [show (st.step (.logApiCall ac aid)).audit_logs =
          attachApiCall st.audit_logs aid ac.call_id from rfl, heq] at hxe
        obtain rfl := Option.some.inj hxe
        exact h.entry_in_agent x e₀ he₀
    · intro x e hxe sd hsid
      rcases alookup_attachApiCall st.audit_logs aid ac.call_id x with heq | ⟨e₀, he₀, heq⟩
      · rw [show (st.step (.logApiCall ac aid)).audit_logs =
          attachApiCall st.audit_logs aid ac.call_id from rfl, heq] at hxe
        exact h.entry_in_session x e hxe sd hsid
      · rw [show (st.step (.logApiCall ac aid)).audit_logs =
          attachApiCall st.audit_logs aid ac.call_id from rfl, heq] at hxe
        obtain rfl := Option.some.inj hxe
        exact h.entry_in_session x e₀ he₀ sd hsid
  | logAccess aid uid ur pid rt act ok reason ip sid =>
    exact ⟨h.patient_closed, h.agent_closed, h.session_closed,
      h.entry_in_patient, h.entry_in_agent, h.entry_in_session⟩
  | logEscalation eid sa aid reason conf rl ass =>
    exact ⟨h.patient_closed, h.agent_closed, h.session_closed,
      h.entry_in_patient, h.entry_in_agent, h.entry_in_session⟩
  | updateLogOutcome lid outcome status mods =>
    cases he : alookup st.audit_logs lid with
    | none =>
      have hst : st.step (.updateLogOutcome lid outcome status mods) = st := by
        simp [AuditTrailManager.step, updateLogOutcome, he]
      rw [hst]
      exact h
    | some en =>
      refine indexOk_entry_update st lid en
        { en with
          outcome := outcome,
          status := status,
          modifications :=
            match mods with
            | some (mh :: mt) => en.modifications ++ (mh :: mt)
            | _ => en.modifications }
        he rfl rfl rfl
        st.log_index_by_patient st.log_index_by_agent st.log_index_by_session
        rfl rfl rfl h _ ?_ ?_ ?_ ?_ <;>
        simp [AuditTrailManager.step, updateLogOutcome, he]
  | recordHumanOverride lid oby oreason =>
    cases he : alookup st.audit_logs lid with
    | none =>
      have hst : st.step (.recordHumanOverride lid oby oreason) = st := by
        simp [AuditTrailManager.step, recordHumanOverride, he]
      rw [hst]
      exact h
    | some en =>
      refine indexOk_entry_update st lid en
        { en with
          human_override := true,
          override_by := some oby,
          override_reason := some oreason,
          modifications := en.modifications ++
            [[("type", "HUMAN_OVERRIDE"), ("by", oby), ("reason", oreason)]] }
        he rfl rfl rfl
        st.log_index_by_patient st.log_index_by_agent st.log_index_by_session
        rfl rfl rfl h _ ?_ ?_ ?_ ?_ <;>
        simp [AuditTrailManager.step, recordHumanOverride, he]
  | resolveEscalation eid rby ract =>
    cases he : alookup st.escalation_logs eid with
    | none =>
      have hst : st.step (.resolveEscalation eid rby ract) = st := by
        simp [AuditTrailManager.step, resolveEscalation, he]
      rw [hst]
      exact h
    | some log =>
      have hlogs : (st.step (.resolveEscalation eid rby ract)).audit_logs =
          st.audit_logs := by
        simp [AuditTrailManager.step, resolveEscalation, he]
      have hp : (st.step (.resolveEscalation eid rby ract)).log_index_by_patient =
          st.log_index_by_patient := by
        simp [AuditTrailManager.step, resolveEscalation, he]
      have ha : (st.step (.resolveEscalation eid rby ract)).log_index_by_agent =
          st.log_index_by_agent := by
        simp [AuditTrailManager.step, resolveEscalation, he]
      have hs : (st.step (.resolveEscalation eid rby ract)).log_index_by_session =
          st.log_index_by_session := by
        simp [AuditTrailManager.step, resolveEscalation, he]
      constructor
      · intro pid x hx
        rw [hp] at hx
        rw [hlogs]
        exact h.patient_closed pid x hx
      · intro ag x hx
        rw [ha] at hx
        rw [hlogs]
        exact h.agent_closed ag x hx
      · intro sd x hx
        rw [hs] at hx
        rw [hlogs]
        exact h.session_closed sd x hx
      · intro x e hxe pid hpid
        rw [hlogs] at hxe
        rw [hp]
        exact h.entry_in_patient x e hxe pid hpid
      · intro x e hxe
        rw [hlogs] at hxe
        rw [ha]
        exact h.entry_in_agent x e hxe
      · intro x e hxe sd hsid
        rw [hlogs] at hxe
        rw [hs]
        exact h.entry_in_session x e hxe sd hsid

/-- The empty audit trail satisfies index integrity. -/
theorem indexOk_empty : IndexOk AuditTrailManager.empty := by
  constructor
  · intro pid x hx
    simp [idsOf, alookup, AuditTrailManager.empty] at hx
  · intro ag x hx
    simp [idsOf, alookup, AuditTrailManager.empty] at hx
  · intro sd x hx
    simp [idsOf, alookup, AuditTrailManager.empty] at hx
  · intro x e hxe pid hpid
    simp [alookup, AuditTrailManager.empty] at hxe
  · intro x e hxe
    simp [alookup, AuditTrailManager.empty] at hxe
  · intro x e hxe sd hsid
    simp [alookup, AuditTrailManager.empty] at hxe

theorem indexOk_foldl (ops : List AuditOp) :
    ∀ st, IndexOk st → IndexOk (ops.foldl AuditTrailManager.step st) := by
  induction ops with
  | nil => exact fun st h => h
  | cons op t ih => exact fun st h => ih _ (indexOk_step st op h)

/-- C10: after any sequence of audit-trail operations starting from the
empty state, every log id held by the patient, agent-type or session index
is a key of the primary store, and every stored entry appears in the
agent-type index and, when created with a patient id (resp. session id), in
the patient (resp. session) index. -/
theorem audit_trail_index_integrity (ops : List AuditOp) :
    IndexOk (runAuditOps ops) :=
  indexOk_foldl ops AuditTrailManager.empty indexOk_empty

/-- Witness for C10 at a concrete operation sequence. -/
theorem audit_trail_index_integrity_witness : IndexOk (runAuditOps c10Ops) :=
  audit_trail_index_integrity c10Ops

end Governance
